import Mathlib

/-!
Verification of the `recently_played.py` ETL pipeline (Spotify recently-played
history → validation gate → idempotent SQLite load).

The Python source is shallowly embedded: a pandas DataFrame row becomes a
`PlayRecord` whose cells are `Option String` (with `none` standing for a
null/NaN cell), the SQLite store becomes an optional list of rows (with `none`
standing for "table not yet created"), and each raised Python exception becomes
an explicit error value.
-/

/-- A calendar date, as produced by `datetime.strptime(ts, "%Y-%m-%d")` and by
`datetime.now().replace(hour=0, minute=0, second=0, microsecond=0)` (both are
midnight datetimes, so comparing them compares the date triple). -/
structure Date where
  year : Nat
  month : Nat
  day : Nat
deriving DecidableEq

/-- Gregorian leap-year rule, as used by Python's `datetime` day validation. -/
def isLeapYear (y : Nat) : Bool :=
  y % 4 == 0 && (y % 100 != 0 || y % 400 == 0)

/-- Number of days in month `m` of year `y` (Python `datetime` constructor
validation). -/
def daysInMonth (y m : Nat) : Nat :=
  if m = 2 then (if isLeapYear y then 29 else 28)
  else if m = 4 ∨ m = 6 ∨ m = 9 ∨ m = 11 then 30
  else 31

/-- Numeric value of an ASCII digit, `none` for any other character. -/
def digitVal (c : Char) : Option Nat :=
  if c.isDigit then some (c.toNat - 48) else none

/-- Decimal value of a digit string (accumulator form); `none` as soon as a
non-digit appears. -/
def digitsVal : Nat → List Char → Option Nat
  | acc, [] => some acc
  | acc, c :: cs =>
    match digitVal c with
    | none => none
    | some d => digitsVal (10 * acc + d) cs

/-- Split a character list on a separator character (like `str.split`,
keeping empty fields). -/
def splitOnChar (sep : Char) : List Char → List (List Char)
  | [] => [[]]
  | c :: cs =>
    match splitOnChar sep cs with
    | [] => [[]]
    | g :: gs => if c = sep then [] :: g :: gs else (c :: g) :: gs

/-- `datetime.strptime(s, "%Y-%m-%d")`, returning `none` where CPython raises
`ValueError`.  CPython compiles the format to the regex
`\d\d\d\d-(1[0-2]|0[1-9]|[1-9])-(3[01]|[12]\d|0[1-9]|[1-9])` (whole-string
match: exactly four year digits, one or two month digits valued 1–12, one or
two day digits valued 1–31) and then the `datetime` constructor additionally
requires `year ≥ 1` and the day to exist in the month.  Digits are modelled as
ASCII digits. -/
def strptime_Ymd (s : String) : Option Date :=
  match splitOnChar '-' s.toList with
  | [ys, ms, ds] =>
    match digitsVal 0 ys, digitsVal 0 ms, digitsVal 0 ds with
    | some y, some m, some d =>
      if ys.length = 4 ∧ 1 ≤ ms.length ∧ ms.length ≤ 2 ∧ 1 ≤ ds.length ∧ ds.length ≤ 2 ∧
          1 ≤ y ∧ 1 ≤ m ∧ m ≤ 12 ∧ 1 ≤ d ∧ d ≤ 31 ∧ d ≤ daysInMonth y m
      then some ⟨y, m, d⟩ else none
    | _, _, _ => none
  | _ => none

/-- One row of the DataFrame built by `transform_data` (and one row of the
`my_played_tracks` table).  Each cell is `Option String`: `none` models a
null/NaN cell, `some s` a string cell (possibly the empty string, which pandas
does NOT consider null). -/
structure PlayRecord where
  song_name : Option String
  artist_name : Option String
  played_at : Option String
  timestamp : Option String
deriving DecidableEq

/-- Whether the row has a null cell: the per-row content of
`df.isnull().values.any()`. -/
def PlayRecord.isnull (r : PlayRecord) : Bool :=
  r.song_name.isNone || r.artist_name.isNone || r.played_at.isNone || r.timestamp.isNone

/-- The exceptions `validate_data` can raise: its three declared data-quality
exceptions, plus the two undeclared exceptions that can escape from
`dt.datetime.strptime` in the freshness loop (`ValueError` on a malformed
string, `TypeError` on a `None` argument). -/
inductive ValidateError where
  | primaryKeyError
  | nullValuesError
  | invalidTimestampError
  | valueError
  | typeError
deriving DecidableEq

/-- The freshness loop
`any(dt.datetime.strptime(ts, "%Y-%m-%d") != today for ts in df["timestamp"])`:
the generator is evaluated lazily and left to right, so the first timestamp
that fails to parse raises `ValueError` (`typeError` for a `None` cell), and
the first well-formed timestamp differing from `today` makes `any` return
`True`, which `validate_data` turns into `InvalidTimestampError`.  Returns
`none` when the whole column parses to `today`. -/
def freshnessScan (today : Date) : List (Option String) → Option ValidateError
  | [] => none
  | none :: _ => some ValidateError.typeError
  | some s :: rest =>
    match strptime_Ymd s with
    | none => some ValidateError.valueError
    | some d =>
      if d = today then freshnessScan today rest
      else some ValidateError.invalidTimestampError

/-- `validate_data(df)`: empty DataFrame → `False`; duplicated `played_at`
(pandas `Series.is_unique`, which counts two NaN as duplicates) →
`PrimaryKeyError`; any null cell (`df.isnull().values.any()`) →
`NullValuesError`; then the lazy freshness scan against `today =
dt.datetime.now().replace(hour=0, minute=0, second=0, microsecond=0)`;
otherwise `True`.  `today` is passed explicitly since the Python code reads the
clock. -/
def validate_data (today : Date) (df : List PlayRecord) : Except ValidateError Bool :=
  if df.isEmpty then Except.ok false
  else if ¬ (df.map PlayRecord.played_at).Nodup then Except.error ValidateError.primaryKeyError
  else if df.any PlayRecord.isnull then Except.error ValidateError.nullValuesError
  else
    match freshnessScan today (df.map PlayRecord.timestamp) with
    | some e => Except.error e
    | none => Except.ok true

/-- The SQLite store: `none` while the `my_played_tracks` table does not exist
yet, `some rows` once it does.  Rows are kept in insertion order. -/
abbrev Store := Option (List PlayRecord)

/-- `CREATE TABLE IF NOT EXISTS my_played_tracks(...)`: creates the empty
table when absent, leaves an existing table untouched. -/
def create_table_if_not_exists (s : Store) : List PlayRecord :=
  s.getD []

/-- `df.to_sql("my_played_tracks", engine, index=False, if_exists="append")`:
a bulk insert executed in a single transaction, so it is all-or-nothing.  Rows
are inserted in order; a row whose `played_at` already occurs in the table (the
primary-key constraint fires, also between two rows of the same batch) raises
`sqlalchemy.exc.IntegrityError`, modelled as `none`, and the transaction rolls
back. -/
def to_sql_append (table : List PlayRecord) (df : List PlayRecord) : Option (List PlayRecord) :=
  df.foldlM
    (fun t r => if t.any (fun x => x.played_at == r.played_at) then none else some (t ++ [r]))
    table

/-- Observable outcome of one `load_data` call: the store afterwards, whether
the `IntegrityError` handler ran (`print("Data already exists...")`), and
whether the `finally` block closed the connection. -/
structure LoadResult where
  store : Store
  conflictLogged : Bool
  connClosed : Bool
deriving DecidableEq

/-- `load_data(df)`: ensure the table exists, bulk-append the batch, catch
`IntegrityError` (leaving the table as it was before the rolled-back insert),
and close the connection in the `finally` block on both paths. -/
def load_data (s : Store) (df : List PlayRecord) : LoadResult :=
  let table := create_table_if_not_exists s
  match to_sql_append table df with
  | some t => ⟨some t, false, true⟩
  | none => ⟨some table, true, true⟩

/-- Observable outcome of the `validate`/`load` tail of `main` (lines 182–185):
the exception escaping `validate_data` if any, the resulting store, and whether
`load_data` was invoked. -/
structure StepResult where
  error : Option ValidateError
  store : Store
  loaderCalled : Bool
deriving DecidableEq

/-- `if validate_data(df): load_data(df)` from `main`: an exception from the
validator propagates and `load_data` is never reached; a `False` gate skips the
loader; a `True` gate runs it. -/
def main_step (today : Date) (s : Store) (df : List PlayRecord) : StepResult :=
  match validate_data today df with
  | Except.error e => ⟨some e, s, false⟩
  | Except.ok false => ⟨none, s, false⟩
  | Except.ok true => ⟨none, (load_data s df).store, true⟩

/-- An artist object (`{"name": ...}`) in the Spotify payload. -/
structure Artist where
  name : String
deriving DecidableEq

/-- An album object, exposing its `artists` list. -/
structure Album where
  artists : List Artist
deriving DecidableEq

/-- A track object: `name` and `album`. -/
structure Track where
  name : String
  album : Album
deriving DecidableEq

/-- One raw play item `song` of `data["items"]`: the track and the
`played_at` string. -/
structure PlayEvent where
  track : Track
  played_at : String
deriving DecidableEq

/-- The raw payload returned by `sp.current_user_recently_played`: its
`items` collection. -/
structure SpotifyData where
  items : List PlayEvent
deriving DecidableEq

/-- The abort on line 49: the code raises `ValueError("No data found for
recent song plays.")`, which the design document's error taxonomy names
`ExtractionError`. -/
inductive ExtractionError where
  | noData
deriving DecidableEq

/-- `extract_recently_played` after the network call: `if not (data := ...)`
raises for a falsy response (`None` or an empty payload, modelled as `none`),
otherwise the raw payload is returned unchanged. -/
def extract_recently_played (response : Option SpotifyData) : Except ExtractionError SpotifyData :=
  match response with
  | none => Except.error ExtractionError.noData
  | some d => Except.ok d

/-- The loop body of `transform_data` for one raw item:
`song["track"]["name"]`, `song["track"]["album"]["artists"][0]["name"]`,
`song["played_at"]`, `song["played_at"][:10]`.  `artists[0]` on an empty list
raises `IndexError`, modelled as `none`. -/
def transformItem (song : PlayEvent) : Option PlayRecord :=
  match song.track.album.artists.head? with
  | some artist =>
    some ⟨some song.track.name, some artist.name, some song.played_at,
      some (song.played_at.take 10)⟩
  | none => none

/-- The loop of `transform_data` over `data["items"]`, in source order: one
output row per item, stopping with the propagated exception (`none`) at the
first item whose field access fails. -/
def transformList : List PlayEvent → Option (List PlayRecord)
  | [] => some []
  | song :: rest =>
    match transformItem song with
    | none => none
    | some row =>
      match transformList rest with
      | none => none
      | some rows => some (row :: rows)

/-- `transform_data(data)`: one output row per item of `data["items"]`, in
source order, with the four columns in the fixed order
`(song_name, artist_name, played_at, timestamp)` (the field order of
`PlayRecord`).  A field-access error on any item propagates (`none`). -/
def transform_data (data : SpotifyData) : Option (List PlayRecord) :=
  transformList data.items

/-- The watermark computation of `extract_recently_played` (lines 43–45):
`now` is the current instant as (integer) epoch seconds, `utcOffsetSec` the
local UTC offset, so `nowEpochSec + utcOffsetSec` is the local calendar time in
seconds.  `now.replace(hour=0, minute=0, second=0, microsecond=0)` floors that
to the day boundary, `.timestamp()` converts back to epoch seconds (subtract
the offset; exact, so `int(...)` truncates nothing), and `* 10**3` scales to
milliseconds. -/
def watermark (nowEpochSec utcOffsetSec : Int) : Int :=
  let localNow := nowEpochSec + utcOffsetSec
  let localMidnightLocal := localNow - localNow % 86400
  let midnightEpochSec := localMidnightLocal - utcOffsetSec
  midnightEpochSec * 1000

/-! ## Helper lemmas -/

/-- The lazy freshness scan succeeds exactly when every cell of the column is a
string that parses to `today`. -/
theorem freshnessScan_eq_none_iff (today : Date) (l : List (Option String)) :
    freshnessScan today l = none ↔
      ∀ ts ∈ l, ∃ s, ts = some s ∧ strptime_Ymd s = some today := by
  induction l with
  | nil => simp [freshnessScan]
  | cons hd tl ih =>
    cases hd with
    | none =>
      simp only [freshnessScan]
      constructor
      · intro h; exact absurd h (by simp)
      · intro h
        obtain ⟨s, hs, _⟩ := h none (List.mem_cons_self _ _)
        exact absurd hs (by simp)
    | some s =>
      cases hps : strptime_Ymd s with
      | none =>
        simp only [freshnessScan, hps]
        constructor
        · intro h; exact absurd h (by simp)
        · intro h
          obtain ⟨u, hu, hpu⟩ := h (some s) (List.mem_cons_self _ _)
          obtain rfl : s = u := by injection hu
          rw [hps] at hpu
          exact absurd hpu (by simp)
      | some d =>
        by_cases hdt : d = today
        · subst hdt
          simp only [freshnessScan, hps]
          rw [if_pos trivial, ih]
          constructor
          · intro h
            intro ts hts
            rcases List.mem_cons.1 hts with h1 | h2
            · exact ⟨s, h1, hps⟩
            · exact h ts h2
          · intro h ts hts
            exact h ts (List.mem_cons_of_mem _ hts)
        · simp only [freshnessScan, hps]
          rw [if_neg hdt]
          constructor
          · intro h; exact absurd h (by simp)
          · intro h
            obtain ⟨u, hu, hpu⟩ := h (some s) (List.mem_cons_self _ _)
            obtain rfl : s = u := by injection hu
            rw [hps] at hpu
            obtain rfl : d = today := by injection hpu
            exact absurd rfl hdt

/-- If every cell before position `k` parses to `today` and the cell at `k` is
a string that does not parse, the lazy scan stops at `k` with the propagated
`ValueError`. -/
theorem freshnessScan_value_first (today : Date) (pre : List (Option String)) (s : String)
    (rest : List (Option String))
    (hpre : ∀ ts ∈ pre, ∃ u, ts = some u ∧ strptime_Ymd u = some today)
    (hs : strptime_Ymd s = none) :
    freshnessScan today (pre ++ some s :: rest) = some ValidateError.valueError := by
  induction pre with
  | nil => simp [freshnessScan, hs]
  | cons hd tl ih =>
    obtain ⟨u, rfl, hu⟩ := hpre hd (List.mem_cons_self _ _)
    simp only [List.cons_append, freshnessScan, hu]
    rw [if_pos trivial]
    exact ih fun ts hts => hpre ts (List.mem_cons_of_mem _ hts)

/-- When every cell of the column is a parseable string and at least one
parses to a date other than `today`, the scan reports
`InvalidTimestampError`. -/
theorem freshnessScan_invalid_of (today : Date) (l : List (Option String))
    (hwf : ∀ ts ∈ l, ∃ u d, ts = some u ∧ strptime_Ymd u = some d)
    (hbad : ∃ ts ∈ l, ∃ u d, ts = some u ∧ strptime_Ymd u = some d ∧ d ≠ today) :
    freshnessScan today l = some ValidateError.invalidTimestampError := by
  induction l with
  | nil =>
    obtain ⟨ts, hmem, _⟩ := hbad
    exact absurd hmem (List.not_mem_nil ts)
  | cons hd tl ih =>
    obtain ⟨u, d, hhd, hu⟩ := hwf hd (List.mem_cons_self _ _)
    subst hhd
    by_cases hdt : d = today
    · subst hdt
      simp only [freshnessScan, hu]
      rw [if_pos trivial]
      apply ih
      · exact fun ts hts => hwf ts (List.mem_cons_of_mem _ hts)
      · obtain ⟨ts, hmem, u2, d2, hts, hp2, hne2⟩ := hbad
        rcases List.mem_cons.1 hmem with h1 | h2
        · exfalso
          subst h1
          obtain rfl : u = u2 := by injection hts
          rw [hu] at hp2
          obtain rfl : d = d2 := by injection hp2
          exact hne2 rfl
        · exact ⟨ts, h2, u2, d2, hts, hp2, hne2⟩
    · simp only [freshnessScan, hu]
      rw [if_neg hdt]

/-- Once a batch is known non-empty with unique `played_at` and no nulls,
`validate_data` is exactly the freshness scan. -/
theorem validate_data_checks (today : Date) (df : List PlayRecord)
    (hne : df ≠ []) (hnd : (df.map PlayRecord.played_at).Nodup)
    (hnn : ∀ r ∈ df, r.isnull = false) :
    validate_data today df =
      match freshnessScan today (df.map PlayRecord.timestamp) with
      | some e => Except.error e
      | none => Except.ok true := by
  unfold validate_data
  rw [if_neg (by simp [List.isEmpty_iff, hne]), if_neg (not_not_intro hnd),
    if_neg (by simp only [List.any_eq_true, not_exists]; intro r; simp only [not_and,
      Bool.not_eq_true]; exact hnn r)]

/-- A successful bulk append appends exactly the batch, in order. -/
theorem to_sql_append_eq_append (df : List PlayRecord) :
    ∀ table t, to_sql_append table df = some t → t = table ++ df := by
  induction df with
  | nil =>
    intro table t h
    simp only [to_sql_append, List.foldlM_nil] at h
    obtain rfl : table = t := by injection h
    simp
  | cons r rest ih =>
    intro table t h
    unfold to_sql_append at h
    rw [List.foldlM_cons] at h
    by_cases hc : table.any (fun x => x.played_at == r.played_at)
    · rw [if_pos hc] at h
      exact absurd h (by simp)
    · rw [if_neg hc] at h
      have h2 : to_sql_append (table ++ [r]) rest = some t := h
      rw [ih _ _ h2]
      simp

/-- A bulk append whose first row's `played_at` already occurs in the table
hits the primary-key constraint immediately. -/
theorem to_sql_append_conflict (table : List PlayRecord) (r : PlayRecord)
    (rest : List PlayRecord) (hmem : r ∈ table) :
    to_sql_append table (r :: rest) = none := by
  unfold to_sql_append
  rw [List.foldlM_cons]
  have hc : table.any (fun x => x.played_at == r.played_at) = true :=
    List.any_eq_true.2 ⟨r, hmem, by simp⟩
  rw [if_pos hc]
  rfl

/-! ## Claim theorems -/

/-- C1: `validate_data` returns `True` exactly when the batch is non-empty and
passes the primary-key, null and freshness checks; an empty batch yields the
"do not proceed" result `False` without raising, and in that case `main` never
calls `load_data` and the store is untouched. -/
theorem validate_gate_and_empty_short_circuit (today : Date) (s : Store)
    (df : List PlayRecord) :
    (df = [] →
      validate_data today df = Except.ok false ∧
      (main_step today s df).loaderCalled = false ∧
      (main_step today s df).store = s) ∧
    (validate_data today df = Except.ok true ↔
      df ≠ [] ∧ (df.map PlayRecord.played_at).Nodup ∧
      (∀ r ∈ df, r.isnull = false) ∧
      (∀ r ∈ df, ∃ u, r.timestamp = some u ∧ strptime_Ymd u = some today)) := by
  constructor
  · rintro rfl
    exact ⟨rfl, rfl, rfl⟩
  · constructor
    · intro h
      by_cases hne : df = []
      · subst hne
        exact absurd h (by simp [validate_data])
      refine ⟨hne, ?_⟩
      by_cases hnd : (df.map PlayRecord.played_at).Nodup
      case neg =>
        rw [validate_data, if_neg (by simp [List.isEmpty_iff, hne]), if_pos hnd] at h
        exact absurd h (by simp)
      refine ⟨hnd, ?_⟩
      by_cases hnn : df.any PlayRecord.isnull
      case pos =>
        rw [validate_data, if_neg (by simp [List.isEmpty_iff, hne]),
          if_neg (not_not_intro hnd), if_pos hnn] at h
        exact absurd h (by simp)
      have hnn2 : ∀ r ∈ df, r.isnull = false := by
        intro r hr
        by_contra hcon
        exact hnn (List.any_eq_true.2 ⟨r, hr, by simpa using hcon⟩)
      refine ⟨hnn2, ?_⟩
      rw [validate_data_checks today df hne hnd hnn2] at h
      cases hscan : freshnessScan today (df.map PlayRecord.timestamp) with
      | some e => rw [hscan] at h; exact absurd h (by simp)
      | none =>
        intro r hr
        exact (freshnessScan_eq_none_iff today _).1 hscan r.timestamp
          (List.mem_map_of_mem _ hr)
    · rintro ⟨hne, hnd, hnn, hfresh⟩
      rw [validate_data_checks today df hne hnd hnn,
        (freshnessScan_eq_none_iff today _).2 ?_]
      intro ts hts
      obtain ⟨r, hr, rfl⟩ := List.mem_map.1 hts
      exact hfresh r hr

/-- C1 witness: the empty batch yields `False` with the loader skipped, and a
concrete valid singleton batch yields `True`. -/
theorem validate_gate_and_empty_short_circuit_witness :
    validate_data ⟨2026, 10, 12⟩ [] = Except.ok false ∧
    (main_step ⟨2026, 10, 12⟩ (some []) []).loaderCalled = false ∧
    validate_data ⟨2026, 10, 12⟩
      [⟨some "A", some "X", some "2026-10-12T10:00:00Z", some "2026-10-12"⟩] =
      Except.ok true := by
  refine ⟨((validate_gate_and_empty_short_circuit ⟨2026, 10, 12⟩ (some []) []).1 rfl).1,
    ((validate_gate_and_empty_short_circuit ⟨2026, 10, 12⟩ (some []) []).1 rfl).2.1,
    (validate_gate_and_empty_short_circuit ⟨2026, 10, 12⟩ (some []) _).2.mpr
      ⟨by simp, by simp, by simp [PlayRecord.isnull], ?_⟩⟩
  intro r hr
  rw [List.mem_singleton.1 hr]
  exact ⟨"2026-10-12", rfl, by decide⟩

/-- C2: a non-empty batch in which two distinct positions share a `played_at`
value makes `validate_data` raise `PrimaryKeyError`, and `main` never invokes
`load_data` for that batch — the store is left untouched. -/
theorem duplicate_played_at_primary_key_error (today : Date) (s : Store)
    (df : List PlayRecord) (hne : df ≠ [])
    (i j : Nat) (hi : i < df.length) (hj : j < df.length) (hij : i ≠ j)
    (heq : (df.get ⟨i, hi⟩).played_at = (df.get ⟨j, hj⟩).played_at) :
    validate_data today df = Except.error ValidateError.primaryKeyError ∧
    (main_step today s df).loaderCalled = false ∧
    (main_step today s df).store = s := by
  have heq2 : (df.get ⟨i, hi⟩).played_at = (df.get ⟨j, hj⟩).played_at := heq
  rw [List.get_eq_getElem, List.get_eq_getElem] at heq2
  have hnd : ¬ (df.map PlayRecord.played_at).Nodup := by
    intro hnd
    have hmi : i < (df.map PlayRecord.played_at).length := by simpa using hi
    have hmj : j < (df.map PlayRecord.played_at).length := by simpa using hj
    have hmeq : (df.map PlayRecord.played_at)[i] = (df.map PlayRecord.played_at)[j] := by
      rw [List.getElem_map, List.getElem_map]
      exact heq2
    exact hij (hnd.getElem_inj_iff.1 hmeq)
  have hval : validate_data today df = Except.error ValidateError.primaryKeyError := by
    rw [validate_data, if_neg (by simp [List.isEmpty_iff, hne]), if_pos hnd]
  exact ⟨hval, by simp [main_step, hval], by simp [main_step, hval]⟩

/-- C2 witness: the spec's own duplicate-`played_at` scenario raises
`PrimaryKeyError` and the loader is skipped. -/
theorem duplicate_played_at_primary_key_error_witness :
    validate_data ⟨2026, 10, 12⟩
      [⟨some "A", some "X", some "2024-01-01T10:00:00Z", some "2024-01-01"⟩,
        ⟨some "B", some "Y", some "2024-01-01T10:00:00Z", some "2024-01-01"⟩] =
      Except.error ValidateError.primaryKeyError ∧
    (main_step ⟨2026, 10, 12⟩ (some [])
      [⟨some "A", some "X", some "2024-01-01T10:00:00Z", some "2024-01-01"⟩,
        ⟨some "B", some "Y", some "2024-01-01T10:00:00Z", some "2024-01-01"⟩]).loaderCalled =
      false := by
  have h := duplicate_played_at_primary_key_error ⟨2026, 10, 12⟩ (some [])
    [⟨some "A", some "X", some "2024-01-01T10:00:00Z", some "2024-01-01"⟩,
      ⟨some "B", some "Y", some "2024-01-01T10:00:00Z", some "2024-01-01"⟩]
    (by simp) 0 1 (by simp) (by simp) (by simp) rfl
  exact ⟨h.1, h.2.1⟩

/-- C3 counterexample: a non-empty batch with distinct `played_at` values whose
`song_name` is the EMPTY string passes validation (`True`), because pandas
`isnull` does not treat empty strings as null — refuting the claim that an
empty field raises `NullValuesError`. -/
theorem empty_string_field_passes_null_check :
    validate_data ⟨2026, 10, 12⟩
      [⟨some "", some "X", some "2026-10-12T10:00:00Z", some "2026-10-12"⟩] =
      Except.ok true := by
  rfl

/-- C3 amended: in a non-empty batch with pairwise-distinct `played_at`
values, a null (`None`/`NaN`) cell in any of the four fields makes
`validate_data` raise `NullValuesError`; empty strings are not detected by the
null check. -/
theorem null_fields_raise_null_values_error (today : Date) (df : List PlayRecord)
    (hne : df ≠ []) (hnd : (df.map PlayRecord.played_at).Nodup)
    (hnull : ∃ r ∈ df, r.isnull = true) :
    validate_data today df = Except.error ValidateError.nullValuesError := by
  rw [validate_data, if_neg (by simp [List.isEmpty_iff, hne]), if_neg (not_not_intro hnd),
    if_pos (List.any_eq_true.2 hnull)]

/-- C3 amended witness: a singleton batch with a `None` song name raises
`NullValuesError`. -/
theorem null_fields_raise_null_values_error_witness :
    validate_data ⟨2026, 10, 12⟩ [⟨none, some "X", some "p", some "t"⟩] =
      Except.error ValidateError.nullValuesError :=
  null_fields_raise_null_values_error ⟨2026, 10, 12⟩ _ (by simp) (by simp)
    ⟨⟨none, some "X", some "p", some "t"⟩, by simp, rfl⟩

/-- C4: for a non-empty batch passing the uniqueness and null checks, with
every `timestamp` a string in `%Y-%m-%d` form, `validate_data` raises
`InvalidTimestampError` as soon as any record's date differs from `today`
(local midnight, date-only comparison), and returns `True` when every record's
date equals `today`. -/
theorem fresh_timestamps_gate (today : Date) (df : List PlayRecord)
    (hne : df ≠ []) (hnd : (df.map PlayRecord.played_at).Nodup)
    (hnn : ∀ r ∈ df, r.isnull = false)
    (hwf : ∀ r ∈ df, ∃ u d, r.timestamp = some u ∧ strptime_Ymd u = some d) :
    ((∃ r ∈ df, ∃ u d, r.timestamp = some u ∧ strptime_Ymd u = some d ∧ d ≠ today) →
      validate_data today df = Except.error ValidateError.invalidTimestampError) ∧
    ((∀ r ∈ df, ∃ u, r.timestamp = some u ∧ strptime_Ymd u = some today) →
      validate_data today df = Except.ok true) := by
  have hscan := validate_data_checks today df hne hnd hnn
  constructor
  · intro hbad
    rw [hscan, freshnessScan_invalid_of today _ ?_ ?_]
    · intro ts hts
      obtain ⟨r, hr, rfl⟩ := List.mem_map.1 hts
      exact hwf r hr
    · obtain ⟨r, hr, u, d, h1, h2, h3⟩ := hbad
      exact ⟨r.timestamp, List.mem_map_of_mem _ hr, u, d, h1, h2, h3⟩
  · intro hfresh
    rw [hscan, (freshnessScan_eq_none_iff today _).2 ?_]
    intro ts hts
    obtain ⟨r, hr, rfl⟩ := List.mem_map.1 hts
    exact hfresh r hr

/-- C4 witness: a singleton batch dated `2026-10-12` validates as `True` when
the run day is `2026-10-12`, and the same record is rejected with
`InvalidTimestampError` when the run day is `2026-10-13`. -/
theorem fresh_timestamps_gate_witness :
    validate_data ⟨2026, 10, 12⟩
      [⟨some "A", some "X", some "2026-10-12T10:00:00Z", some "2026-10-12"⟩] =
      Except.ok true ∧
    validate_data ⟨2026, 10, 13⟩
      [⟨some "A", some "X", some "2026-10-12T10:00:00Z", some "2026-10-12"⟩] =
      Except.error ValidateError.invalidTimestampError := by
  constructor
  · refine (fresh_timestamps_gate ⟨2026, 10, 12⟩ _ (by simp) (by simp)
      (by simp [PlayRecord.isnull]) ?_).2 ?_
    · intro r hr
      rw [List.mem_singleton.1 hr]
      exact ⟨"2026-10-12", ⟨2026, 10, 12⟩, rfl, by decide⟩
    · intro r hr
      rw [List.mem_singleton.1 hr]
      exact ⟨"2026-10-12", rfl, by decide⟩
  · refine (fresh_timestamps_gate ⟨2026, 10, 13⟩ _ (by simp) (by simp)
      (by simp [PlayRecord.isnull]) ?_).1 ?_
    · intro r hr
      rw [List.mem_singleton.1 hr]
      exact ⟨"2026-10-12", ⟨2026, 10, 12⟩, rfl, by decide⟩
    · exact ⟨_, List.mem_singleton_self _, "2026-10-12", ⟨2026, 10, 12⟩, rfl, by decide,
        by decide⟩

/-- C5: for every validated batch and every store state, running `load_data`
twice with the identical batch leaves the store exactly as one run does: the
second run's bulk append hits the primary-key constraint, the conflict is
caught, and no duplicate rows are persisted. -/
theorem load_data_idempotent (today : Date) (s : Store) (df : List PlayRecord)
    (hv : validate_data today df = Except.ok true) :
    (load_data (load_data s df).store df).store = (load_data s df).store := by
  have hne : df ≠ [] := by
    intro h
    subst h
    exact absurd hv (by simp [validate_data])
  obtain ⟨r, rest, rfl⟩ := List.exists_cons_of_ne_nil hne
  cases happ : to_sql_append (create_table_if_not_exists s) (r :: rest) with
  | none =>
    have h1 : (load_data s (r :: rest)).store = some (create_table_if_not_exists s) := by
      simp [load_data, happ]
    rw [h1]
    simp only [create_table_if_not_exists] at happ
    simp [load_data, create_table_if_not_exists, happ]
  | some t =>
    have ht : t = create_table_if_not_exists s ++ (r :: rest) :=
      to_sql_append_eq_append _ _ _ happ
    have h1 : (load_data s (r :: rest)).store = some t := by
      simp [load_data, happ]
    rw [h1]
    have hconf : to_sql_append t (r :: rest) = none :=
      to_sql_append_conflict t r rest
        (by rw [ht]; exact List.mem_append_right _ (List.mem_cons_self _ _))
    simp [load_data, create_table_if_not_exists, hconf]

/-- C5 witness: loading a concrete validated singleton batch twice into an
initially absent table leaves the store identical to one load. -/
theorem load_data_idempotent_witness :
    (load_data
        (load_data none
          [⟨some "A", some "X", some "2026-10-12T10:00:00Z", some "2026-10-12"⟩]).store
        [⟨some "A", some "X", some "2026-10-12T10:00:00Z", some "2026-10-12"⟩]).store =
      (load_data none
        [⟨some "A", some "X", some "2026-10-12T10:00:00Z", some "2026-10-12"⟩]).store :=
  load_data_idempotent ⟨2026, 10, 12⟩ none
    [⟨some "A", some "X", some "2026-10-12T10:00:00Z", some "2026-10-12"⟩] (by rfl)

/-- C6: on every call, `load_data` closes the store connection (the `finally`
block runs on both the success and the conflict path), and the conflict
handler runs — logging the conflict and returning normally with the store as
it was before the rolled-back insert — exactly when the bulk append raises the
primary-key `IntegrityError`. -/
theorem load_data_conflict_caught_conn_closed (s : Store) (df : List PlayRecord) :
    (load_data s df).connClosed = true ∧
    ((load_data s df).conflictLogged = true ↔
      to_sql_append (create_table_if_not_exists s) df = none) ∧
    (to_sql_append (create_table_if_not_exists s) df = none →
      (load_data s df).store = some (create_table_if_not_exists s)) := by
  cases happ : to_sql_append (create_table_if_not_exists s) df with
  | none => simp [load_data, happ]
  | some t => simp [load_data, happ]

/-- On a well-formed item list (every album has at least one artist), the
transformation loop is exactly a map of the per-item projection. -/
theorem transformList_eq_map (l : List PlayEvent)
    (h : ∀ song ∈ l, song.track.album.artists ≠ []) :
    transformList l = some (l.map fun song =>
      ⟨some song.track.name, Option.map Artist.name song.track.album.artists.head?,
        some song.played_at, some (song.played_at.take 10)⟩) := by
  induction l with
  | nil => rfl
  | cons song rest ih =>
    have hart : song.track.album.artists ≠ [] := h song (List.mem_cons_self _ _)
    obtain ⟨a, as, ha⟩ := List.exists_cons_of_ne_nil hart
    rw [List.map_cons, transformList, ih fun x hx => h x (List.mem_cons_of_mem _ hx)]
    simp [transformItem, ha]

/-- C7: for a raw payload whose items all carry at least one album artist,
`transform_data` yields exactly one `PlayRecord` per raw item, in source order,
with the four columns in the fixed `PlayRecord` field order: row `i` holds the
track name, the first listed artist of the track's album, the raw `played_at`,
and as `timestamp` the first 10 characters of that `played_at`. -/
theorem transform_data_shape (data : SpotifyData)
    (h : ∀ song ∈ data.items, song.track.album.artists ≠ []) :
    ∃ recs, transform_data data = some recs ∧ recs.length = data.items.length ∧
      ∀ (i : Nat) (hi : i < data.items.length) (hr : i < recs.length),
        (recs.get ⟨i, hr⟩).song_name = some (data.items.get ⟨i, hi⟩).track.name ∧
        (recs.get ⟨i, hr⟩).artist_name =
          Option.map Artist.name (data.items.get ⟨i, hi⟩).track.album.artists.head? ∧
        (recs.get ⟨i, hr⟩).played_at = some (data.items.get ⟨i, hi⟩).played_at ∧
        (recs.get ⟨i, hr⟩).timestamp =
          some ((data.items.get ⟨i, hi⟩).played_at.take 10) := by
  refine ⟨_, transformList_eq_map data.items h, by simp, ?_⟩
  intro i hi hr
  simp [List.get_eq_getElem, List.getElem_map]

/-- C7 witness: a concrete one-item payload transforms successfully. -/
theorem transform_data_shape_witness :
    (transform_data ⟨[⟨⟨"Song", ⟨[⟨"Art"⟩]⟩⟩, "2026-10-12T01:02:03Z"⟩]⟩).isSome = true := by
  obtain ⟨recs, h1, _⟩ := transform_data_shape ⟨[⟨⟨"Song", ⟨[⟨"Art"⟩]⟩⟩,
    "2026-10-12T01:02:03Z"⟩]⟩ (by intro song hs; rw [List.mem_singleton.1 hs]; simp)
  rw [h1]
  rfl

/-- C8: when the upstream source returns no data at all (a falsy payload), the
Extractor fails with the taxonomy's `ExtractionError` (raised as an uncaught
`ValueError`, which aborts the run since `main` installs no handler); on any
actual payload it returns the raw payload unchanged. -/
theorem extract_no_data_error :
    extract_recently_played none = Except.error ExtractionError.noData ∧
    ∀ d, extract_recently_played (some d) = Except.ok d :=
  ⟨rfl, fun _ => rfl⟩

/-- C9: the watermark handed to the source is a whole number of milliseconds,
its seconds part is exactly the epoch instant of a local midnight, and `now`
lies within the following 86400 seconds — i.e. it is the start of the current
local day expressed as integer milliseconds since the epoch. -/
theorem watermark_is_local_midnight_ms (nowEpochSec utcOffsetSec : Int) :
    watermark nowEpochSec utcOffsetSec % 1000 = 0 ∧
    (watermark nowEpochSec utcOffsetSec / 1000 + utcOffsetSec) % 86400 = 0 ∧
    0 ≤ (nowEpochSec + utcOffsetSec) -
      (watermark nowEpochSec utcOffsetSec / 1000 + utcOffsetSec) ∧
    (nowEpochSec + utcOffsetSec) -
      (watermark nowEpochSec utcOffsetSec / 1000 + utcOffsetSec) < 86400 := by
  simp only [watermark]
  omega

/-- C10 counterexample: a non-empty batch passing the uniqueness and null
checks that contains a malformed (empty) timestamp nonetheless raises
`InvalidTimestampError`, not the `ValueError` the claim predicts: the lazy
`any(...)` generator reaches a well-formed but stale timestamp first. -/
theorem stale_before_malformed_raises_invalid_timestamp :
    validate_data ⟨2026, 10, 12⟩
      [⟨some "A", some "X", some "2020-01-01T00:00:00Z", some "2020-01-01"⟩,
        ⟨some "B", some "Y", some "p2", some ""⟩] =
      Except.error ValidateError.invalidTimestampError := by
  rfl

/-- C10 amended: in a non-empty batch passing the uniqueness and null checks,
a record whose `timestamp` is not parseable in `%Y-%m-%d` format makes
`validate_data` raise the uncaught `ValueError` from `strptime` — provided
every earlier record's timestamp parses to today's date (otherwise the lazy
scan raises `InvalidTimestampError` at the first stale timestamp instead). -/
theorem malformed_timestamp_raises_value_error (today : Date)
    (pre rest : List PlayRecord) (r : PlayRecord)
    (hnd : ((pre ++ r :: rest).map PlayRecord.played_at).Nodup)
    (hnn : ∀ x ∈ pre ++ r :: rest, x.isnull = false)
    (hpre : ∀ x ∈ pre, ∃ u, x.timestamp = some u ∧ strptime_Ymd u = some today)
    (hmal : ∃ u, r.timestamp = some u ∧ strptime_Ymd u = none) :
    validate_data today (pre ++ r :: rest) = Except.error ValidateError.valueError := by
  obtain ⟨u, hts, hsp⟩ := hmal
  have hne : pre ++ r :: rest ≠ [] := by simp
  rw [validate_data_checks today _ hne hnd hnn]
  have hsplit : (pre ++ r :: rest).map PlayRecord.timestamp =
      pre.map PlayRecord.timestamp ++ some u :: rest.map PlayRecord.timestamp := by
    simp [hts]
  rw [hsplit, freshnessScan_value_first today _ u _ ?_ hsp]
  intro ts hts2
  obtain ⟨x, hx, rfl⟩ := List.mem_map.1 hts2
  exact hpre x hx

/-- C10 amended witness: a fresh timestamp followed by an empty (unparseable)
timestamp raises the uncaught `ValueError`. -/
theorem malformed_timestamp_raises_value_error_witness :
    validate_data ⟨2026, 10, 12⟩
      [⟨some "A", some "X", some "p1", some "2026-10-12"⟩,
        ⟨some "B", some "Y", some "p2", some ""⟩] =
      Except.error ValidateError.valueError := by
  have h := malformed_timestamp_raises_value_error ⟨2026, 10, 12⟩
    [⟨some "A", some "X", some "p1", some "2026-10-12"⟩] []
    ⟨some "B", some "Y", some "p2", some ""⟩
    (by simp) (by simp [PlayRecord.isnull])
    (by intro x hx; rw [List.mem_singleton.1 hx]; exact ⟨"2026-10-12", rfl, by decide⟩)
    ⟨"", rfl, rfl⟩
  exact h
